import Mathlib

/-!
Verification of the Exam-allocation-system chatbot pipeline.

Shallow embedding of:
  * `backend/routes/chatbotRoutes.js`   — entity text builders, vector-cache
    rebuild (`POST /cache-data`) and the semantic admin chatbot
    (`POST /admin`);
  * `backend/controllers/chatbotController.js` — intent-routed retrieval
    (`fetchRelevantData`), structured context formatting
    (`formatContextData`) and LLM response generation (`generateResponse`);
  * `backend/controllers/chatbot.js`    — input validation and message
    assembly of the Groq-based generator.

JavaScript conventions used throughout the embedding:
  * a possibly-absent (`undefined`/`null`) value is an `Option`;
  * a Mongoose `populate` of a dangling reference yields `null`, so a
    populated foreign key is an `Option` of the referenced document;
  * accessing a property of `null`/`undefined` throws a `TypeError`; code
    that may throw returns `Except JsErr`;
  * a rejected promise inside `Promise.all` rejects the whole aggregate,
    which is the fail-fast semantics of `mapE` below;
  * `Array.prototype.join(sep)` is `joinSep sep`;
  * `arr.slice(-n)` is `sliceLast n`;
  * `a || b` on strings treats `""` as falsy (`jsOrStr`);
  * locale date/time rendering (`toLocaleDateString` and friends) is an
    external library concern; it is modelled as the identity on the
    already-stringly-typed date field.
-/

namespace ExamChat

/-- JavaScript `Array.prototype.join(sep)`. -/
def joinSep (sep : String) : List String → String
  | [] => ""
  | [x] => x
  | x :: xs => x ++ sep ++ joinSep sep xs

/-- JavaScript `arr.slice(-n)` for `n > 0`: the suffix of the last `n`
elements (the whole array when it is shorter than `n`). -/
def sliceLast (n : Nat) (l : List α) : List α := l.drop (l.length - n)

/-- JavaScript `a || b` where `a` may be absent and the empty string is
falsy. -/
def jsOrStr (a : Option String) (b : String) : String :=
  match a with
  | some s => if s = "" then b else s
  | none => b

/-- JavaScript truthiness of a possibly-absent string. -/
def jsTruthy (a : Option String) : Bool :=
  match a with
  | some s => s ≠ ""
  | none => false

/-- Character-list prefix test. -/
def charsStartsWith : List Char → List Char → Bool
  | _, [] => true
  | [], _ :: _ => false
  | c :: cs, p :: ps => c = p && charsStartsWith cs ps

/-- Character-list contiguous-substring test. -/
def charsContains (s pat : List Char) : Bool :=
  match s with
  | [] => pat.isEmpty
  | _ :: cs => charsStartsWith s pat || charsContains cs pat

/-- JavaScript `s.includes(pat)` (substring test; `""` is in anything). -/
def jsIncludes (s pat : String) : Bool :=
  charsContains s.data pat.data

/-- Substring test used to state properties about rendered text. -/
def strContains (s pat : String) : Bool :=
  charsContains s.data pat.data

/-- JavaScript `s.toUpperCase()` over ASCII data. -/
def jsToUpper (s : String) : String := String.mk (s.data.map Char.toUpper)

/-- JavaScript `s.toLowerCase()` over ASCII data. -/
def jsToLower (s : String) : String := String.mk (s.data.map Char.toLower)

/-- JavaScript `s.trim()`. -/
def jsTrim (s : String) : String :=
  String.mk (((s.data.dropWhile Char.isWhitespace).reverse.dropWhile
    Char.isWhitespace).reverse)

/-! ## chatbotRoutes.js — documents as they come out of `.populate().lean()`

A populated reference field holds the referenced document, or `none` when
the referenced record was deleted (Mongoose substitutes `null`). -/

/-- One entry of `exam.semesters`. -/
structure RSemEntry where
  semester : Nat
  totalStudents : Nat
deriving DecidableEq, Repr

/-- An `Exam` document (`Exam.find().lean()`). -/
structure RExam where
  id : String
  name : String
  year : Nat
  semesters : List RSemEntry
  faculty : List String
  rooms : List String
deriving DecidableEq, Repr

/-- A `Room` document. -/
structure RRoom where
  id : String
  building : String
  roomNumber : String
  capacity : Nat
deriving DecidableEq, Repr

/-- A `Subject` document with its `exam` reference populated
(`Subject.find().populate('exam').lean()`). -/
structure RSubject where
  id : String
  name : String
  subjectCode : String
  semester : Nat
  date : String
  startTime : String
  endTime : String
  exam : Option RExam
deriving DecidableEq, Repr

/-- A faculty `User` document (`User.find({role: 'Faculty'})`, but a
populated `facultyId` can reference a user of any role). -/
structure RFaculty where
  id : String
  name : String
  designation : String
  role : String
deriving DecidableEq, Repr

/-- An `Allocation` document with `examId subjectId roomId facultyId`
populated; each is `none` when the referenced record no longer exists. -/
structure RAllocation where
  id : String
  examId : Option RExam
  subjectId : Option RSubject
  roomId : Option RRoom
  facultyId : Option RFaculty
  date : String
  startTime : String
  endTime : String
deriving DecidableEq, Repr

/-- A `RoomAllocation` document with `examId roomId subjectId subjectIds`
populated. -/
structure RRoomAllocation where
  id : String
  examId : Option RExam
  roomId : Option RRoom
  subjectId : Option RSubject
  subjectIds : List RSubject
  students : List String
  date : String
  startTime : String
  endTime : String
deriving DecidableEq, Repr

/-- `formatDate`: locale rendering of a date is external library behaviour;
the embedding keeps the stringly-typed date as-is. -/
def formatDate (date : String) : String := date

/-- `buildExamText(exam, subjects, faculties, rooms)`: renders one exam and
all of its joined sub-entities into a summary paragraph. -/
def buildExamText (exam : RExam) (subjects : List RSubject)
    (faculties : List RFaculty) (rooms : List RRoom) : String :=
  let subjectList := joinSep "\n  - " (subjects.map fun s =>
    s.name ++ " (" ++ s.subjectCode ++ ") on " ++ formatDate s.date ++ " "
      ++ s.startTime ++ "-" ++ s.endTime)
  let facultyList := joinSep "\n  - " (faculties.map fun f =>
    f.name ++ " (" ++ f.designation ++ ")")
  let roomList := joinSep "\n  - " (rooms.map fun r =>
    r.building ++ " Room " ++ r.roomNumber ++ " (Capacity: "
      ++ toString r.capacity ++ ")")
  "Exam: " ++ exam.name ++ " (Year: " ++ toString exam.year ++ ")"
    ++ "\n- Semesters: " ++ joinSep ", " (exam.semesters.map fun s =>
        "Sem " ++ toString s.semester ++ " (" ++ toString s.totalStudents
          ++ " students)")
    ++ "\n- Subjects:\n  - " ++ subjectList
    ++ "\n- Faculties:\n  - " ++ facultyList
    ++ "\n- Rooms:\n  - " ++ roomList

/-- `buildAllocationText(alloc, exam, subject, room, faculty)`. -/
def buildAllocationText (alloc : RAllocation) (exam : RExam)
    (subject : RSubject) (room : RRoom) (faculty : RFaculty) : String :=
  "Allocation for " ++ exam.name ++ ":"
    ++ "\n- Faculty: " ++ faculty.name ++ " (" ++ faculty.designation ++ ")"
    ++ "\n- Subject: " ++ subject.name ++ " (Sem " ++ toString subject.semester ++ ")"
    ++ "\n- Room: " ++ room.building ++ " Room " ++ room.roomNumber
    ++ "\n- Date: " ++ formatDate alloc.date
    ++ "\n- Time: " ++ alloc.startTime ++ " to " ++ alloc.endTime

/-- `buildRoomAllocationText(roomAlloc, exam, room, subjects)`. -/
def buildRoomAllocationText (roomAlloc : RRoomAllocation) (exam : RExam)
    (room : RRoom) (subjects : List RSubject) : String :=
  let subjectList :=
    if subjects.length > 0 then
      joinSep " and " (subjects.map fun s =>
        s.name ++ " (Sem " ++ toString s.semester ++ ")")
    else "No subjects specified"
  "Room Allocation for " ++ exam.name ++ ":"
    ++ "\n- Room: " ++ room.building ++ " Room " ++ room.roomNumber
      ++ " (Capacity: " ++ toString room.capacity ++ ")"
    ++ "\n- Subjects: " ++ subjectList
    ++ "\n- Students: " ++ toString roomAlloc.students.length ++ " students"
    ++ "\n- Date: " ++ formatDate roomAlloc.date
    ++ "\n- Time: " ++ roomAlloc.startTime ++ " to " ++ roomAlloc.endTime

/-! ## chatbotRoutes.js — `POST /cache-data` (vector index rebuild) -/

/-- Errors a document-processing promise can reject with. -/
inductive JsErr
  | typeError
  | embeddingError
  | otherError (msg : String)
deriving DecidableEq, Repr

/-- An embedding vector is opaque payload for the index; its numeric content
never influences control flow in the rebuild. -/
abbrev Emb := Nat

/-- The external embedding endpoint: `getEmbedding` either returns a vector
or rejects (`throw new Error("Failed to generate embeddings")`). -/
abbrev EmbedEnv := String → Except Unit Emb

/-- `getEmbedding(text)`, with the transport error wrapped into the domain
error the route-level catch sees. -/
def getEmbedding (env : EmbedEnv) (text : String) : Except JsErr Emb :=
  match env text with
  | .ok v => .ok v
  | .error _ => .error .embeddingError

/-- Metadata attached to an indexed document. -/
inductive DocMeta
  | exam (examId : String) (name : String) (year : Nat) (semesters : List Nat)
  | allocation (allocationId examId subjectId roomId facultyId : String)
      (date : String) (time : String)
  | room_allocation (roomAllocationId examId roomId : String)
      (subjectIds : List String) (studentCount : Nat)
      (date : String) (time : String)
deriving DecidableEq, Repr

/-- A document inserted into the `exam_embeddings` vector collection. -/
structure IndexedDoc where
  id : String
  content : String
  embedding : Emb
  metadata : DocMeta
deriving DecidableEq, Repr

/-- The relational snapshot the rebuild reads
(`Exam.find / Room.find / Subject.find / Allocation.find /
RoomAllocation.find / User.find({role:'Faculty'})`). -/
structure RDb where
  exams : List RExam
  rooms : List RRoom
  subjects : List RSubject
  allocations : List RAllocation
  roomAllocations : List RRoomAllocation
  faculties : List RFaculty
deriving Repr

/-- The per-rebuild lookup maps (`examMap`/`roomMap`/`subjectMap`/
`facultyMap`), keyed by stringified `_id`. -/
def lookupMap (key : α → String) (l : List α) : String → Option α :=
  fun id => l.find? fun x => key x = id

/-- A `List.filter` whose predicate may throw, mirroring a JavaScript
`Array.prototype.filter` with a throwing callback. -/
def filterE (p : α → Except ε Bool) : List α → Except ε (List α)
  | [] => .ok []
  | x :: xs =>
    match p x with
    | .error e => .error e
    | .ok b =>
      match filterE p xs with
      | .error e => .error e
      | .ok rest => .ok (if b then x :: rest else rest)

/-- Reading `doc._id` off a populated reference: throws a `TypeError` when
the reference is dangling (`populate` produced `null`). -/
def popId (r : Option α) (key : α → String) : Except JsErr String :=
  match r with
  | none => .error .typeError
  | some x => .ok (key x)

/-- One promise of `examInserts`: join an exam against its subjects,
faculties and rooms, summarize, embed, insert. The `s.exam._id` access
throws when a subject's populated exam is `null`. -/
def processExam (env : EmbedEnv) (subjects : List RSubject)
    (facultyMap : String → Option RFaculty) (roomMap : String → Option RRoom)
    (exam : RExam) : Except JsErr (Option IndexedDoc) :=
  match filterE (fun s =>
    match popId s.exam RExam.id with
    | .error e => .error e
    | .ok eid => .ok (eid = exam.id)) subjects with
  | .error e => .error e
  | .ok examSubjects =>
    let examFaculties := (exam.faculty.map facultyMap).reduceOption
    let examRooms := (exam.rooms.map roomMap).reduceOption
    let content := buildExamText exam examSubjects examFaculties examRooms
    match getEmbedding env content with
    | .error e => .error e
    | .ok emb =>
      .ok (some
        { id := "exam_" ++ exam.id
          content := content
          embedding := emb
          metadata := .exam exam.id exam.name exam.year
            (exam.semesters.map RSemEntry.semester) })

/-- One promise of `allocInserts`: the four `alloc.xId._id.toString()` map
lookups run before the `!exam || !subject || !room || !faculty` guard, so a
dangling populated reference throws a `TypeError` instead of reaching the
skip path; the skip path is reached when the map lookup itself misses. -/
def processAlloc (env : EmbedEnv)
    (examMap : String → Option RExam) (subjectMap : String → Option RSubject)
    (roomMap : String → Option RRoom) (facultyMap : String → Option RFaculty)
    (alloc : RAllocation) : Except JsErr (Option IndexedDoc) :=
  match popId alloc.examId RExam.id with
  | .error e => .error e
  | .ok examIdStr =>
  match popId alloc.subjectId RSubject.id with
  | .error e => .error e
  | .ok subjectIdStr =>
  match popId alloc.roomId RRoom.id with
  | .error e => .error e
  | .ok roomIdStr =>
  match popId alloc.facultyId RFaculty.id with
  | .error e => .error e
  | .ok facultyIdStr =>
  match examMap examIdStr, subjectMap subjectIdStr,
      roomMap roomIdStr, facultyMap facultyIdStr with
  | some exam, some subject, some room, some faculty =>
    let content := buildAllocationText alloc exam subject room faculty
    (match getEmbedding env content with
    | .error e => .error e
    | .ok emb =>
      .ok (some
        { id := "alloc_" ++ alloc.id
          content := content
          embedding := emb
          metadata := .allocation alloc.id exam.id subject.id room.id faculty.id
            alloc.date (alloc.startTime ++ "-" ++ alloc.endTime) }))
  | _, _, _, _ => .ok none

/-- One promise of `roomAllocInserts`. -/
def processRoomAlloc (env : EmbedEnv)
    (examMap : String → Option RExam) (subjectMap : String → Option RSubject)
    (roomMap : String → Option RRoom)
    (roomAlloc : RRoomAllocation) : Except JsErr (Option IndexedDoc) :=
  match popId roomAlloc.examId RExam.id with
  | .error e => .error e
  | .ok examIdStr =>
  match popId roomAlloc.roomId RRoom.id with
  | .error e => .error e
  | .ok roomIdStr =>
  let subjectIds :=
    match roomAlloc.subjectId with
    | some s => [s.id]
    | none => roomAlloc.subjectIds.map RSubject.id
  let roomSubjects := (subjectIds.map subjectMap).reduceOption
  match examMap examIdStr, roomMap roomIdStr with
  | some exam, some room =>
    if roomSubjects.length = 0 then .ok none
    else
      let content := buildRoomAllocationText roomAlloc exam room roomSubjects
      (match getEmbedding env content with
      | .error e => .error e
      | .ok emb =>
        .ok (some
          { id := "roomalloc_" ++ roomAlloc.id
            content := content
            embedding := emb
            metadata := .room_allocation roomAlloc.id exam.id room.id
              (roomSubjects.map RSubject.id) roomAlloc.students.length
              roomAlloc.date (roomAlloc.startTime ++ "-" ++ roomAlloc.endTime) }))
  | _, _ => .ok none

/-- `Promise.all` over a list of per-record promises: any rejection rejects
the aggregate. -/
def mapE (f : α → Except ε β) : List α → Except ε (List β)
  | [] => .ok []
  | x :: xs =>
    match f x with
    | .error e => .error e
    | .ok y =>
      match mapE f xs with
      | .error e => .error e
      | .ok ys => .ok (y :: ys)

/-- Outcome of a successful rebuild. -/
structure CacheOk where
  docs : List IndexedDoc
  message : String
deriving Repr

/-- The body of `router.post('/cache-data')`: fetch all records, build the
lookup maps, process every exam, allocation and room allocation, and await
all inserts with `Promise.all`. -/
def cacheData (db : RDb) (env : EmbedEnv) : Except JsErr CacheOk :=
  let examMap := lookupMap RExam.id db.exams
  let roomMap := lookupMap RRoom.id db.rooms
  let subjectMap := lookupMap RSubject.id db.subjects
  let facultyMap := lookupMap RFaculty.id db.faculties
  match mapE (processExam env db.subjects facultyMap roomMap) db.exams with
  | .error e => .error e
  | .ok examResults =>
  match mapE (processAlloc env examMap subjectMap roomMap facultyMap)
      db.allocations with
  | .error e => .error e
  | .ok allocResults =>
  match mapE (processRoomAlloc env examMap subjectMap roomMap)
      db.roomAllocations with
  | .error e => .error e
  | .ok roomAllocResults =>
    .ok {
      docs := (examResults ++ allocResults ++ roomAllocResults).reduceOption
      message := "Data cached successfully: " ++ toString db.exams.length
        ++ " exams, " ++ toString db.allocations.length ++ " allocations, "
        ++ toString db.roomAllocations.length ++ " room allocations" }

/-- The HTTP response of the cache endpoint. -/
structure CacheResponse where
  success : Bool
  body : String
deriving DecidableEq, Repr

/-- Route-level `try/catch` of `/cache-data`: a rejected `Promise.all`
becomes a 500 `Cache failed` response for the whole rebuild. -/
def cacheRoute (db : RDb) (env : EmbedEnv) : CacheResponse :=
  match cacheData db env with
  | .ok r => { success := true, body := r.message }
  | .error _ => { success := false, body := "Cache failed" }

/-! ## chatbotRoutes.js — `POST /admin` (semantic chatbot) -/

/-- The `metadata.type` tag of an indexed document. -/
inductive RType
  | exam
  | allocation
  | room_allocation
deriving DecidableEq, Repr

/-- One candidate returned by the vector search
(`includeSimilarity: true`). Similarities are compared against decimal
thresholds, modelled as rationals. -/
structure SearchResult where
  sim : ℚ
  rtype : RType
  content : String
deriving DecidableEq, Repr

/-- `results.filter(r => r.$similarity >= 0.3)`. -/
def relevantFilter (results : List SearchResult) : List SearchResult :=
  results.filter fun r => (3 : ℚ)/10 ≤ r.sim

/-- The `forEach`/`switch` that pushes each relevant result's content into
the `examContexts`, `allocationContexts`, `roomAllocationContexts` arrays,
in candidate order. -/
def collectByType : List SearchResult → List String × List String × List String
  | [] => ([], [], [])
  | r :: rest =>
    let t := collectByType rest
    match r.rtype with
    | .exam => (r.content :: t.1, t.2.1, t.2.2)
    | .allocation => (t.1, r.content :: t.2.1, t.2.2)
    | .room_allocation => (t.1, t.2.1, r.content :: t.2.2)

/-- Step 4 of the route: the organized context block. -/
def buildAdminContext (relevant : List SearchResult) : String :=
  let t := collectByType relevant
  "Exam System Information:\n\n"
    ++ (if t.1.length > 0 then "EXAMS:\n" ++ joinSep "\n\n" t.1 ++ "\n\n" else "")
    ++ (if t.2.1.length > 0 then
          "FACULTY ALLOCATIONS:\n" ++ joinSep "\n\n" t.2.1 ++ "\n\n" else "")
    ++ (if t.2.2.length > 0 then
          "ROOM ALLOCATIONS:\n" ++ joinSep "\n\n" t.2.2 ++ "\n\n" else "")

/-- The system prompt sent to the chat model in step 5. -/
def adminSystemPrompt (context : String) : String :=
  "You are an exam administration assistant. Strictly use ONLY the following information.\nIf data is missing, respond with \x22No data available\x22.\n\nRULES:\n1. Be specific about dates, times, rooms, and faculty\n2. For student counts, provide exact numbers\n3. For room allocations, mention building and room number\n4. Never invent information\n\n"
    ++ context

/-- A successful `/admin` response: either the early no-data answer (sent
without any chat-completion call) or an LLM answer generated from the
grouped context. -/
inductive AdminAnswer
  | noData (answer : String)
  | generated (context : String) (answer : String)
deriving DecidableEq, Repr

/-- The body of `router.post('/admin')`. `search` is the vector collection
(step 2, already threshold-0.25-filtered and limited to 7 by the store);
`llm` is the chat-completion endpoint applied to system prompt and user
query. Failures (missing query, embedding error) hit the route catch. -/
def adminRoute (query : String) (env : EmbedEnv)
    (search : Emb → List SearchResult)
    (llm : String → String → String) : Except String AdminAnswer :=
  if query = "" then .error "Query is required"
  else
    match env query with
    | .error _ => .error "Failed to generate embeddings"
    | .ok queryEmbedding =>
      let results := search queryEmbedding
      let relevantResults := relevantFilter results
      if relevantResults.length = 0 then
        .ok (.noData "No relevant exam data available for this query.")
      else
        let context := buildAdminContext relevantResults
        .ok (.generated context (llm (adminSystemPrompt context) query))

/-! ## chatbotController.js — data model

Records coming from `chatbotDatabaseService` are duck-typed: a foreign-key
field may hold either a populated object or a raw id string, and may be
absent altogether.  All ids are non-empty strings. -/

/-- A duck-typed foreign key: a populated object or a raw id string.
`typeof x === 'object'` distinguishes the two. -/
inductive JsRef (α : Type)
  | obj (v : α)
  | prim (s : String)
deriving DecidableEq, Repr

/-- JavaScript truthiness of a possibly-absent reference (a raw empty
string is falsy; an object is always truthy). -/
def jsRefTruthy : Option (JsRef α) → Bool
  | some (.prim s) => s ≠ ""
  | some (.obj _) => true
  | none => false

/-- One entry of `exam.semesters` as the formatter reads it. -/
structure CSemEntry where
  semester : String
deriving DecidableEq, Repr

/-- An exam record; `subjects` entries are either objects with a `name` or
plain strings (`s.name || s`). -/
structure CExam where
  name : String
  year : String
  semesters : List CSemEntry
  subjects : List (JsRef String)
deriving DecidableEq, Repr

/-- A subject record; `exam` may be populated (object with `name`) or a raw
id. -/
structure CSubject where
  name : String
  subjectCode : String
  semester : String
  date : Option String
  startTime : Option String
  endTime : Option String
  exam : Option (JsRef String)
deriving DecidableEq, Repr

/-- A room record. -/
structure CRoom where
  building : String
  roomNumber : String
  floor : String
  capacity : String
deriving DecidableEq, Repr

/-- The payload of a populated `subjectId`. -/
structure CSubjPop where
  name : String
  subjectCode : String
deriving DecidableEq, Repr

/-- The payload of a populated `roomId`. -/
structure CRoomPop where
  id : String
  roomNumber : String
  building : String
deriving DecidableEq, Repr

/-- A faculty-allocation record as the formatter reads it. -/
structure CAlloc where
  facultyName : Option String
  facultyId : Option (JsRef String)
  examId : Option (JsRef String)
  subjectId : Option (JsRef CSubjPop)
  roomId : Option (JsRef CRoomPop)
  date : Option String
  startTime : Option String
  endTime : Option String
deriving DecidableEq, Repr

/-- A student-allocation record. -/
structure CStudentAlloc where
  roomNumber : Option String
  roomId : Option (JsRef CRoomPop)
  examId : Option (JsRef String)
  subjectId : Option (JsRef String)
  subjectIds : List (JsRef String)
  date : Option String
  students : List String
deriving DecidableEq, Repr

/-- A faculty profile record. -/
structure CFaculty where
  name : String
  email : Option String
  designation : Option String
  available : Bool
deriving DecidableEq, Repr

/-- The global aggregate counters of `getSystemStats()`. -/
structure Stats where
  totalExams : Nat
  totalRooms : Nat
  totalFaculty : Nat
  totalSubjects : Nat
  currentAllocations : Nat
  upcomingExams : Nat
deriving DecidableEq, Repr

/-- The personal counters assembled for a non-admin `system_stats` query. -/
structure FacultyStats where
  totalAllocations : Nat
  upcomingAllocations : Nat
  pastAllocations : Nat
deriving DecidableEq, Repr

/-- The object returned by `searchAll` (always has its four keys). -/
structure SearchResults where
  exams : List CExam
  subjects : List CSubject
  rooms : List CRoom
  faculty : List CFaculty
deriving DecidableEq, Repr

/-- A value stored under a key of `contextData.data`; the key string decides
how the formatter interprets it. -/
inductive DsVal
  | exams (l : List CExam)
  | subjects (l : List CSubject)
  | rooms (l : List CRoom)
  | allocs (l : List CAlloc)
  | studAllocs (l : List CStudentAlloc)
  | faculty (l : List CFaculty)
  | stats (s : Stats)
  | facultyStats (s : FacultyStats)
  | search (r : SearchResults)
  | nullV
deriving DecidableEq, Repr

/-- The empty-data check at the top of the formatter loop:
`!data || (Array.isArray(data) && data.length === 0) ||
(typeof data === 'object' && Object.keys(data).length === 0)`. -/
def isEmptyDs : DsVal → Bool
  | .exams l => l.isEmpty
  | .subjects l => l.isEmpty
  | .rooms l => l.isEmpty
  | .allocs l => l.isEmpty
  | .studAllocs l => l.isEmpty
  | .faculty l => l.isEmpty
  | .stats _ => false
  | .facultyStats _ => false
  | .search _ => false
  | .nullV => true

/-- The authenticated caller, `null` when anonymous. -/
structure UserInfo where
  id : String
  role : String
  name : String
  email : Option String
  designation : Option String
  available : Bool
deriving DecidableEq, Repr

/-- `contextData.data.faculty = [user]`: the user object rendered through
the faculty formatter branch. -/
def userToFaculty (u : UserInfo) : CFaculty :=
  { name := u.name, email := u.email, designation := u.designation
    available := u.available }

/-- The untrusted output of `queryAnalyzer.analyzeQuery`: every slot is
optional. -/
structure Analysis where
  intent : Option String := none
  time_period : Option String := none
  exam_name : Option String := none
  exam_year : Option String := none
  semester : Option String := none
  subject_name : Option String := none
  subject_code : Option String := none
  date : Option String := none
  faculty_name : Option String := none
  faculty_id : Option String := none
  room_id : Option String := none
  building : Option String := none
  room_number : Option String := none
  floor : Option String := none
  student : Option String := none
  email : Option String := none
  designation : Option String := none
deriving DecidableEq, Repr

/-- Sparse filter for `findExams`. -/
structure ExamQuery where
  name : Option String := none
  year : Option String := none
  semester : Option String := none
deriving DecidableEq, Repr

/-- Sparse filter for `findSubjects`. -/
structure SubjectQuery where
  name : Option String := none
  subjectCode : Option String := none
  semester : Option String := none
  date : Option String := none
deriving DecidableEq, Repr

/-- Sparse filter for `findFacultyAllocations`; the three booleans are the
spread `...timeParams` flags. -/
structure FacultyAllocQuery where
  facultyName : Option String := none
  facultyId : Option String := none
  roomId : Option String := none
  roomNumber : Option String := none
  date : Option String := none
  past : Bool := false
  future : Bool := false
  present : Bool := false
deriving DecidableEq, Repr

/-- Sparse filter for `findRooms`. -/
structure RoomQuery where
  building : Option String := none
  roomNumber : Option String := none
  floor : Option String := none
deriving DecidableEq, Repr

/-- Sparse filter for `findStudentAllocations`. -/
structure StudentAllocQuery where
  roomNumber : Option String := none
  semester : Option String := none
  student : Option String := none
  date : Option String := none
  roomIds : List String := []
  roomNumbers : List String := []
  past : Bool := false
  future : Bool := false
  present : Bool := false
deriving DecidableEq, Repr

/-- Sparse filter for `findFaculty`. -/
structure FacultyQuery where
  name : Option String := none
  email : Option String := none
  designation : Option String := none
deriving DecidableEq, Repr

/-- The external `chatbotDatabaseService`: a family of total lookup
functions over the current database state. -/
structure CDb where
  findExams : ExamQuery → List CExam
  findSubjects : SubjectQuery → List CSubject
  findFacultyAllocations : FacultyAllocQuery → List CAlloc
  findRooms : RoomQuery → List CRoom
  findStudentAllocations : StudentAllocQuery → List CStudentAlloc
  findFaculty : FacultyQuery → List CFaculty
  getSystemStats : Stats
  searchAll : String → SearchResults

/-- The `{past, future, present}` flags derived from
`analysisResult.time_period`. -/
structure TimeParams where
  past : Bool := false
  future : Bool := false
  present : Bool := false
deriving DecidableEq, Repr

/-- The `ContextBundle` assembled by `fetchRelevantData`; `data` is an
insertion-ordered association list, matching `Object.keys` order. -/
structure ContextBundle where
  intent : String
  data : List (String × DsVal)
  userRole : Option String
  userName : Option String
deriving Repr

/-- `fetchRelevantData(analysisResult, user)`: the intent-keyed switch.

The `default` branch evaluates `dbService.searchAll(query)` where `query`
is not in scope inside this method; the resulting `ReferenceError` is
caught by the method-level `catch`, which returns the bundle assembled so
far — so the branch contributes no data at all. -/
def fetchRelevantData (db : CDb) (analysisResult : Analysis)
    (user : Option UserInfo) : ContextBundle :=
  let intent := jsOrStr analysisResult.intent "general_query"
  let tp : TimeParams :=
    match analysisResult.time_period with
    | some "past" => { past := true }
    | some "future" => { future := true }
    | some "present" => { present := true }
    | _ => {}
  let facultyId : Option String :=
    match user with
    | some u => if u.role = "Faculty" then some u.id else none
    | none => none
  let facultyName : Option String :=
    match user with
    | some u => if u.role = "Faculty" then some u.name
                else analysisResult.faculty_name
    | none => analysisResult.faculty_name
  let data : List (String × DsVal) :=
    if intent = "exam_info" then
      [("exams", .exams (db.findExams
        { name := analysisResult.exam_name
          year := analysisResult.exam_year
          semester := analysisResult.semester }))]
      ++ (if jsTruthy analysisResult.subject_name
            || jsTruthy analysisResult.subject_code then
          [("subjects", .subjects (db.findSubjects
            { name := analysisResult.subject_name
              subjectCode := analysisResult.subject_code
              semester := analysisResult.semester
              date := analysisResult.date }))]
        else [])
      ++ (match facultyId with
        | some fid =>
          [("facultyExams", .allocs (db.findFacultyAllocations
            { facultyId := some fid
              past := tp.past, future := tp.future, present := tp.present }))]
        | none => [])
    else if intent = "faculty_allocation" then
      [("allocations", .allocs (db.findFacultyAllocations
        { facultyName := facultyName
          facultyId := facultyId <|> analysisResult.faculty_id
          roomId := analysisResult.room_id
          date := analysisResult.date
          past := tp.past, future := tp.future, present := tp.present }))]
      ++ (if jsTruthy facultyName then
          [("faculty", .faculty (db.findFaculty { name := facultyName }))]
        else [])
    else if intent = "room_info" then
      [("rooms", .rooms (db.findRooms
        { building := analysisResult.building
          roomNumber := analysisResult.room_number
          floor := analysisResult.floor }))]
      ++ (if jsTruthy analysisResult.room_number then
          [("roomAllocations", .studAllocs (db.findStudentAllocations
            { roomNumber := analysisResult.room_number
              date := analysisResult.date
              past := tp.past, future := tp.future, present := tp.present })),
           ("facultyRoomAllocations", .allocs (db.findFacultyAllocations
            { roomNumber := analysisResult.room_number
              date := analysisResult.date
              past := tp.past, future := tp.future, present := tp.present }))]
        else [])
      ++ (match facultyId with
        | some fid =>
          [("facultyRooms", .allocs (db.findFacultyAllocations
            { facultyId := some fid
              past := tp.past, future := tp.future, present := tp.present }))]
        | none => [])
    else if intent = "student_allocation" then
      [("studentAllocations", .studAllocs (db.findStudentAllocations
        { roomNumber := analysisResult.room_number
          semester := analysisResult.semester
          student := analysisResult.student
          date := analysisResult.date
          past := tp.past, future := tp.future, present := tp.present }))]
      ++ (if facultyId.isSome && !jsTruthy analysisResult.room_number then
          let facultyAllocations := db.findFacultyAllocations
            { facultyId := facultyId
              date := analysisResult.date
              past := tp.past, future := tp.future, present := tp.present }
          if facultyAllocations.length > 0 then
            let roomIds := facultyAllocations.filterMap fun alloc =>
              match alloc.roomId with
              | some (.obj p) => some p.id
              | some (.prim s) => if s = "" then none else some s
              | none => none
            let roomNumbers := facultyAllocations.filterMap fun alloc =>
              match alloc.roomId with
              | some (.obj p) =>
                if p.roomNumber = "" then none else some p.roomNumber
              | _ => none
            [("facultyRoomStudents", .studAllocs (db.findStudentAllocations
              { roomIds := roomIds
                roomNumbers := roomNumbers
                date := analysisResult.date
                past := tp.past, future := tp.future, present := tp.present }))]
          else []
        else [])
    else if intent = "faculty_info" then
      match user with
      | some u =>
        if u.role = "Faculty"
            && (!jsTruthy analysisResult.faculty_name
              || jsIncludes (jsToLower u.name)
                  (jsToLower (analysisResult.faculty_name.getD ""))) then
          [("faculty", .faculty [userToFaculty u])]
        else
          [("faculty", .faculty (db.findFaculty
            { name := analysisResult.faculty_name
              email := analysisResult.email
              designation := analysisResult.designation }))]
      | none =>
        [("faculty", .faculty (db.findFaculty
          { name := analysisResult.faculty_name
            email := analysisResult.email
            designation := analysisResult.designation }))]
    else if intent = "system_stats" then
      match user with
      | none => [("stats", .stats db.getSystemStats)]
      | some u =>
        if u.role = "Admin" then [("stats", .stats db.getSystemStats)]
        else
          [("facultyStats", .facultyStats
            { totalAllocations :=
                (db.findFacultyAllocations { facultyId := facultyId }).length
              upcomingAllocations :=
                (db.findFacultyAllocations
                  { facultyId := facultyId, future := true }).length
              pastAllocations :=
                (db.findFacultyAllocations
                  { facultyId := facultyId, past := true }).length })]
    else
      -- default branch: `searchAll(query)` throws a ReferenceError (the
      -- identifier `query` is not in scope), the catch swallows it, and
      -- the bundle keeps its empty data object.
      []
  { intent := intent, data := data
    userRole := user.map UserInfo.role
    userName := user.map UserInfo.name }

/-! ## chatbotController.js — `formatContextData` -/

/-- `s.name || s` over a duck-typed list entry (an object whose `name` is
falsy stringifies as `[object Object]`). -/
def renderNameOr : JsRef String → String
  | .obj n => if n = "" then "[object Object]" else n
  | .prim s => s

/-- `typeof x === 'object' ? x.name : x`. -/
def renderRefName : Option (JsRef String) → String
  | some (.obj n) => n
  | some (.prim s) => s
  | none => ""

/-- A JavaScript `forEach((item, index) => ...)` accumulating into the
output string. -/
def renderIndexed (f : Nat → α → String) (l : List α) : String :=
  String.join (l.enum.map fun p => f p.1 p.2)

/-- One block of the `exams` branch. -/
def renderExamItem (index : Nat) (exam : CExam) : String :=
  "Exam " ++ toString (index + 1) ++ ": " ++ exam.name ++ " (" ++ exam.year ++ ")\n"
  ++ (if exam.semesters.length > 0 then
      "  Semesters: "
        ++ joinSep ", " (exam.semesters.map CSemEntry.semester) ++ "\n"
    else "")
  ++ (if exam.subjects.length > 0 then
      "  Subjects: " ++ toString exam.subjects.length ++ " subjects\n"
      ++ "  Sample Subjects: "
        ++ joinSep ", " ((exam.subjects.take 3).map renderNameOr)
        ++ (if exam.subjects.length > 3 then "..." else "") ++ "\n"
    else "")
  ++ "\n"

/-- One block of the `subjects` branch. -/
def renderSubjectItem (index : Nat) (subject : CSubject) : String :=
  "Subject " ++ toString (index + 1) ++ ": " ++ subject.name
    ++ " (" ++ subject.subjectCode ++ ")\n"
  ++ "  Semester: " ++ subject.semester ++ "\n"
  ++ (if jsTruthy subject.date then
      "  Date: " ++ formatDate (subject.date.getD "") ++ "\n"
      ++ "  Time: " ++ jsOrStr subject.startTime "N/A" ++ " - "
        ++ jsOrStr subject.endTime "N/A" ++ "\n"
    else "")
  ++ (if jsRefTruthy subject.exam then
      "  Exam: " ++ renderRefName subject.exam ++ "\n"
    else "")
  ++ "\n"

/-- One block of the `rooms` branch. -/
def renderRoomItem (index : Nat) (room : CRoom) : String :=
  "Room " ++ toString (index + 1) ++ ": " ++ room.building ++ " - "
    ++ room.roomNumber ++ "\n"
  ++ "  Floor: " ++ room.floor ++ ", Capacity: " ++ room.capacity ++ "\n"
  ++ "\n"

/-- One block of the `allocations`/`facultyExams`/`facultyRooms` branch. -/
def renderAllocItem (index : Nat) (allocation : CAlloc) : String :=
  let facultyName := jsOrStr allocation.facultyName
    (match allocation.facultyId with
      | some (.obj n) => n
      | _ => "Unknown")
  "Allocation " ++ toString (index + 1) ++ ":\n"
  ++ "  Faculty: " ++ facultyName ++ "\n"
  ++ (if jsRefTruthy allocation.examId then
      "  Exam: " ++ renderRefName allocation.examId ++ "\n"
    else "")
  ++ (if jsRefTruthy allocation.subjectId then
      let subjectName :=
        match allocation.subjectId with
        | some (.obj p) => p.name
        | some (.prim s) => s
        | none => ""
      let subjectCode :=
        match allocation.subjectId with
        | some (.obj p) => p.subjectCode
        | _ => ""
      "  Subject: " ++ subjectName
        ++ (if subjectCode ≠ "" then " (" ++ subjectCode ++ ")" else "")
        ++ "\n"
    else "")
  ++ (if jsRefTruthy allocation.roomId then
      let building :=
        match allocation.roomId with
        | some (.obj p) => p.building
        | _ => ""
      let roomNumber :=
        match allocation.roomId with
        | some (.obj p) => p.roomNumber
        | some (.prim s) => s
        | none => ""
      "  Room: " ++ (if building ≠ "" then building ++ " - " else "")
        ++ roomNumber ++ "\n"
    else "")
  ++ (if jsTruthy allocation.date then
      "  Date: " ++ formatDate (allocation.date.getD "") ++ "\n"
      ++ "  Time: " ++ jsOrStr allocation.startTime "N/A" ++ " - "
        ++ jsOrStr allocation.endTime "N/A" ++ "\n"
    else "")
  ++ "\n"

/-- One block of the
`studentAllocations`/`roomAllocations`/`facultyRoomStudents` branch. -/
def renderStudentAllocItem (index : Nat) (allocation : CStudentAlloc) : String :=
  let viaRoomId :=
    match allocation.roomId with
    | some (.obj p) => p.roomNumber
    | _ => ""
  "Student Allocation " ++ toString (index + 1) ++ ":\n"
  ++ "  Room: "
    ++ jsOrStr allocation.roomNumber (jsOrStr (some viaRoomId) "Unknown")
    ++ "\n"
  ++ (if jsRefTruthy allocation.examId then
      "  Exam: " ++ renderRefName allocation.examId ++ "\n"
    else "")
  ++ (if jsRefTruthy allocation.subjectId then
      "  Subject: " ++ renderRefName allocation.subjectId ++ "\n"
    else if allocation.subjectIds.length > 0 then
      "  Subjects: "
        ++ joinSep ", " (allocation.subjectIds.map fun sub =>
            match sub with
            | .obj n => n
            | .prim s => s)
        ++ "\n"
    else "")
  ++ (if jsTruthy allocation.date then
      "  Date: " ++ formatDate (allocation.date.getD "") ++ "\n"
    else "")
  ++ "  Students Count: " ++ toString allocation.students.length ++ "\n"
  ++ (if allocation.students.length > 0 then
      "  Sample Students: " ++ joinSep ", " (allocation.students.take 5)
        ++ (if allocation.students.length > 5 then "..." else "") ++ "\n"
    else "")
  ++ "\n"

/-- One block of the `faculty` branch. -/
def renderFacultyItem (index : Nat) (faculty : CFaculty) : String :=
  "Faculty " ++ toString (index + 1) ++ ": " ++ faculty.name ++ "\n"
  ++ "  Email: " ++ jsOrStr faculty.email "Not provided" ++ "\n"
  ++ "  Designation: " ++ jsOrStr faculty.designation "Not specified" ++ "\n"
  ++ "  Available: " ++ (if faculty.available then "Yes" else "No") ++ "\n"
  ++ "\n"

/-- The `stats` branch. -/
def renderStats (data : Stats) : String :=
  "  Total Exams: " ++ toString data.totalExams ++ "\n"
  ++ "  Total Rooms: " ++ toString data.totalRooms ++ "\n"
  ++ "  Total Faculty: " ++ toString data.totalFaculty ++ "\n"
  ++ "  Total Subjects: " ++ toString data.totalSubjects ++ "\n"
  ++ "  Current Allocations: " ++ toString data.currentAllocations ++ "\n"
  ++ "  Upcoming Exams: " ++ toString data.upcomingExams ++ "\n"
  ++ "\n"

/-- The `facultyStats` branch. -/
def renderFacultyStats (data : FacultyStats) : String :=
  "  Total Allocations: " ++ toString data.totalAllocations ++ "\n"
  ++ "  Upcoming Allocations: " ++ toString data.upcomingAllocations ++ "\n"
  ++ "  Past Allocations: " ++ toString data.pastAllocations ++ "\n"
  ++ "\n"

/-- Template interpolation of a possibly-absent string
(`${x}` renders `undefined` when absent). -/
def jsInterp (o : Option String) : String := o.getD "undefined"

/-- The `searchResults` branch. -/
def renderSearch (data : SearchResults) : String :=
  (if data.exams.length > 0 then
    "  Exams found: " ++ toString data.exams.length ++ "\n"
    ++ String.join ((data.exams.take 3).map fun exam =>
        "    - " ++ exam.name ++ " (" ++ exam.year ++ ")\n")
  else "")
  ++ (if data.subjects.length > 0 then
    "  Subjects found: " ++ toString data.subjects.length ++ "\n"
    ++ String.join ((data.subjects.take 3).map fun subject =>
        "    - " ++ subject.name ++ " (" ++ subject.subjectCode ++ ")\n")
  else "")
  ++ (if data.rooms.length > 0 then
    "  Rooms found: " ++ toString data.rooms.length ++ "\n"
    ++ String.join ((data.rooms.take 3).map fun room =>
        "    - " ++ room.building ++ " - " ++ room.roomNumber ++ "\n")
  else "")
  ++ (if data.faculty.length > 0 then
    "  Faculty found: " ++ toString data.faculty.length ++ "\n"
    ++ String.join ((data.faculty.take 3).map fun faculty =>
        "    - " ++ faculty.name ++ " (" ++ jsInterp faculty.email ++ ")\n")
  else "")
  ++ "\n"

/-- The `if/else if` chain on `dataType` inside the formatter loop; a key
matched by no branch contributes nothing after its header. In the source
the key uniquely determines the shape of the value, so the mismatched
shape cases are unreachable and render nothing. -/
def renderBody (key : String) (v : DsVal) : String :=
  if key = "exams" then
    match v with
    | .exams l => renderIndexed renderExamItem l
    | _ => ""
  else if key = "subjects" then
    match v with
    | .subjects l => renderIndexed renderSubjectItem l
    | _ => ""
  else if key = "rooms" then
    match v with
    | .rooms l => renderIndexed renderRoomItem l
    | _ => ""
  else if key = "allocations" ∨ key = "facultyExams" ∨ key = "facultyRooms" then
    match v with
    | .allocs l => renderIndexed renderAllocItem l
    | _ => ""
  else if key = "studentAllocations" ∨ key = "roomAllocations"
      ∨ key = "facultyRoomStudents" then
    match v with
    | .studAllocs l => renderIndexed renderStudentAllocItem l
    | _ => ""
  else if key = "faculty" then
    match v with
    | .faculty l => renderIndexed renderFacultyItem l
    | _ => ""
  else if key = "stats" then
    match v with
    | .stats s => renderStats s
    | _ => ""
  else if key = "facultyStats" then
    match v with
    | .facultyStats s => renderFacultyStats s
    | _ => ""
  else if key = "searchResults" then
    match v with
    | .search r => renderSearch r
    | _ => ""
  else ""

/-- One iteration of the `Object.keys(contextData.data).forEach` loop:
skip empty data, otherwise emit the uppercase header and the branch body. -/
def renderEntry (entry : String × DsVal) : String :=
  if isEmptyDs entry.2 then ""
  else jsToUpper entry.1 ++ ":\n" ++ renderBody entry.1 entry.2

/-- The fixed intent/role header lines emitted before the datasets. -/
def formatHeader (contextData : ContextBundle) : String :=
  "CONTEXT INFORMATION FOR QUERY:\n"
  ++ "Intent: " ++ contextData.intent ++ "\n"
  ++ (if jsTruthy contextData.userRole then
      "User Role: " ++ contextData.userRole.getD "" ++ "\n"
      ++ (if jsTruthy contextData.userName then
          "User Name: " ++ contextData.userName.getD "" ++ "\n"
        else "")
    else "")
  ++ "\n"

/-- The `Object.keys(contextData.data).forEach` loop accumulating
`formattedContext +=` in insertion order. -/
def renderEntries : List (String × DsVal) → String
  | [] => ""
  | entry :: rest => renderEntry entry ++ renderEntries rest

/-- `formatContextData(contextData)`. -/
def formatContextData (contextData : ContextBundle) : String :=
  formatHeader contextData ++ renderEntries contextData.data

/-! ## chatbotController.js — `generateResponse` -/

/-- `CONVERSATION_HISTORY_LENGTH` from the controller constructor. -/
def CONVERSATION_HISTORY_LENGTH : Nat := 5

/-- One chat-completion message. -/
structure ChatMsg where
  role : String
  content : String
deriving DecidableEq, Repr

/-- The role-branching system prompt plus the fixed guideline block and the
formatted context. -/
def buildSystemPrompt (user : Option UserInfo) (context : String) : String :=
  "You are an intelligent assistant for a university exam management system."
  ++ (match user with
    | some u =>
      if u.role = "Admin" then
        " You are speaking with an administrator who manages the exam system."
        ++ " You should provide comprehensive information about exams, rooms, faculty allocations, and student seating arrangements."
      else if u.role = "Faculty" then
        " You are speaking with a faculty member named " ++ u.name ++ "."
        ++ " You should focus on information relevant to their exam duties, assigned rooms, and student allocations for their supervision."
        ++ " For faculty, prioritize information about their own allocations and duties."
      else ""
    | none => "")
  ++ "\n\nRespond in a helpful, concise manner. Use the provided context information to answer the user's query accurately. If the context doesn't contain enough information to answer the query, politely indicate that you don't have that specific information.\n\nImportant guidelines:\n1. Only provide information that's supported by the context data.\n2. Don't make up information that's not in the context.\n3. For dates and times, use the exact format provided in the context.\n4. Keep responses clear and structured for easy understanding.\n5. When listing multiple items, use numbered or bulleted lists for clarity.\n6. If context shows no relevant data was found, politely tell the user that information isn't available.\n\n"
  ++ context

/-- The assembled message sequence:
`[system] ++ conversationHistory.slice(-CONVERSATION_HISTORY_LENGTH) ++
[current user turn]`. -/
def generateMessages (query context : String)
    (conversationHistory : List ChatMsg) (user : Option UserInfo) :
    List ChatMsg :=
  { role := "system", content := buildSystemPrompt user context }
    :: (sliceLast CONVERSATION_HISTORY_LENGTH conversationHistory
        ++ [{ role := "user", content := query }])

/-- One element of the chat-completion `choices` array. -/
structure LlmChoice where
  message : ChatMsg
deriving DecidableEq, Repr

/-- The chat-completion response body. -/
structure LlmResp where
  choices : List LlmChoice
deriving DecidableEq, Repr

/-- The external chat-completion endpoint: an error covers transport
failure, timeout and non-2xx status (axios throws on all three). -/
abbrev LlmEnv := List ChatMsg → Except Unit LlmResp

/-- The fixed user-safe apology of the controller's `generateResponse`
catch. -/
def genApology : String :=
  "I'm sorry, I encountered an error while generating a response. Please try again."

/-- `generateResponse(query, context, conversationHistory, user)`: builds
the message sequence, calls the LLM, and degrades any failure (including a
`choices[0]` access on an empty array, a `TypeError` absorbed by the same
catch) to the fixed apology string. -/
def generateResponse (query context : String)
    (conversationHistory : List ChatMsg) (user : Option UserInfo)
    (llm : LlmEnv) : String :=
  match llm (generateMessages query context conversationHistory user) with
  | .error _ => genApology
  | .ok resp =>
    match resp.choices with
    | [] => genApology
    | c :: _ => jsTrim c.message.content

/-! ## chatbot.js — the Groq-based generator with input validation -/

namespace ChatbotJs

/-- One raw entry of the caller-supplied `chatHistory` array: an object
with possibly-absent `role`/`content` (a non-string `content` is modelled
as absent), or a non-object value. -/
inductive HistItem
  | obj (role : Option String) (content : Option String)
  | nonObj
deriving DecidableEq, Repr

/-- The filter predicate of `validateChatHistory`. -/
def isValidHistMsg : HistItem → Bool
  | .obj role content =>
    (role = some "user" ∨ role = some "assistant") && content.isSome
  | .nonObj => false

/-- `validateChatHistory(chatHistory)`: a non-array input (`none`) becomes
`[]`; an array is filtered down to its well-formed messages. It never
throws. -/
def validateChatHistory : Option (List HistItem) → List HistItem
  | none => []
  | some l => l.filter isValidHistMsg

/-- A LangChain message. -/
inductive LcMsg
  | system (content : String)
  | human (content : String)
  | ai (content : String)
deriving DecidableEq, Repr

/-- The content of `createSystemMessage()`. -/
def systemText : String :=
  "You are a helpful assistant for an Exam Allocation System.\n    \n    Your role is to help users with information about exams, room allocations, faculty assignments, and other related queries.\n    \n    For faculty users, you can provide information about their current, past, and future exam invigilation duties.\n    \n    For admin users, you can help with information about room capacities, faculty availability, and allocation status.\n    \n    When answering questions, try to be specific and use the context provided. If you don't have the information, politely say so.\n    \n    Always be professional and helpful."

/-- Conversion of the validated history into LangChain messages. -/
def historyToMessages (history : List HistItem) : List LcMsg :=
  history.filterMap fun msg =>
    match msg with
    | .obj role content =>
      if role = some "user" then some (.human (content.getD ""))
      else if role = some "assistant" then some (.ai (content.getD ""))
      else none
    | .nonObj => none

/-- What one successful `generateResponse` run did: which documents the
knowledge base returned for the query, which history entries survived
validation, the assembled messages and the model answer. -/
structure GenTrace where
  retrievedDocs : List String
  usedHistory : List HistItem
  messages : List LcMsg
  answer : String
deriving DecidableEq, Repr

/-- `generateResponse(userInput, chatHistory, ...)` of chatbot.js.
`kb` is `knowledgeBase.query`; `llm` is the Groq model. A `none`/empty
`userInput` models `!message || typeof message !== 'string'`, rejected by
`validateMessage` before the knowledge base is queried. -/
def generateResponse (kb : String → List String) (llm : List LcMsg → String)
    (userInput : Option String) (chatHistory : Option (List HistItem)) :
    Except String GenTrace :=
  match userInput with
  | none => .error "Invalid message format"
  | some input =>
    if jsTrim input = "" then .error "Invalid message format"
    else
      let validatedHistory := validateChatHistory chatHistory
      let relevantDocs := kb input
      let context := joinSep "\n\n" relevantDocs
      let messages := [LcMsg.system systemText]
        ++ (if context ≠ "" then
            [LcMsg.system
              ("Here is some relevant information that might help answer the user's question:\n"
                ++ context)]
          else [])
        ++ historyToMessages validatedHistory
        ++ [LcMsg.human input]
      .ok
        { retrievedDocs := relevantDocs
          usedHistory := validatedHistory
          messages := messages
          answer := llm messages }

end ChatbotJs

/-! ## Sample data used to instantiate the theorems -/

/-- Sample global stats object. -/
def statsSample : Stats := ⟨4, 3, 2, 10, 5, 1⟩

/-- Sample (empty) broad-search result object. -/
def searchSample : SearchResults := ⟨[], [], [], []⟩

/-- A database service whose lookups all come back empty. -/
def dbEmptyLookups : CDb :=
  { findExams := fun _ => []
    findSubjects := fun _ => []
    findFacultyAllocations := fun _ => []
    findRooms := fun _ => []
    findStudentAllocations := fun _ => []
    findFaculty := fun _ => []
    getSystemStats := statsSample
    searchAll := fun _ => searchSample }

/-- A sample controller-side faculty allocation record. -/
def allocSample : CAlloc :=
  { facultyName := some "Dr. Rao", facultyId := none, examId := none
    subjectId := none, roomId := none, date := none
    startTime := none, endTime := none }

/-- A database service whose faculty-allocation lookup returns one record. -/
def dbOneAlloc : CDb :=
  { dbEmptyLookups with findFacultyAllocations := fun _ => [allocSample] }

/-- A classified `system_stats` query with no slots. -/
def sysStatsAnalysis : Analysis := { intent := some "system_stats" }

/-- A classified `exam_info` query with no slots. -/
def examInfoAnalysis : Analysis := { intent := some "exam_info" }

/-- A classified `room_info` query naming a room. -/
def roomInfoAnalysis : Analysis :=
  { intent := some "room_info", room_number := some "101" }

/-- A sample Faculty caller. -/
def facultyUser : UserInfo := ⟨"u1", "Faculty", "Dr. Rao", none, none, true⟩

/-- A sample Admin caller. -/
def adminUser : UserInfo := ⟨"u2", "Admin", "Admin A", none, none, true⟩

/-! ## C7 — prompt assembly window -/

/-- C7: every generation call sends exactly the system prompt, then the
most recent `CONVERSATION_HISTORY_LENGTH = 5` history turns verbatim and in
their original order (a suffix of the history; all of it when shorter),
then the current user turn.  Older turns are absent — nothing summarizes
them. -/
theorem C7_message_window (query context : String)
    (conversationHistory : List ChatMsg) (user : Option UserInfo) :
    generateMessages query context conversationHistory user
      = { role := "system", content := buildSystemPrompt user context }
        :: (sliceLast 5 conversationHistory
            ++ [{ role := "user", content := query }])
    ∧ sliceLast 5 conversationHistory <:+ conversationHistory
    ∧ (sliceLast 5 conversationHistory).length
        = min 5 conversationHistory.length := by
  refine ⟨rfl, List.drop_suffix _ _, ?_⟩
  simp [sliceLast]
  omega

/-! ## C8 — generation failure degrades to the fixed apology -/

/-- C8: whenever the chat-completion request fails (axios throws alike on
transport error, timeout and non-2xx status), the controller's
`generateResponse` returns the fixed user-safe apology string; the raw
error never reaches the caller. -/
theorem C8_generation_failure_apology (query context : String)
    (conversationHistory : List ChatMsg) (user : Option UserInfo)
    (llm : LlmEnv) (e : Unit)
    (h : llm (generateMessages query context conversationHistory user)
      = .error e) :
    generateResponse query context conversationHistory user llm
      = genApology := by
  unfold generateResponse
  rw [h]

/-- Witness for C8 at a concrete failing call. -/
theorem C8_generation_failure_apology_witness :
    generateResponse "When is the exam?" "ctx" [] none (fun _ => .error ())
      = genApology :=
  C8_generation_failure_apology "When is the exam?" "ctx" [] none
    (fun _ => .error ()) () rfl

/-! ## C10 — the unhandled `facultyRoomAllocations` key -/

/-- The formatter loop distributes over concatenation. -/
theorem renderEntries_append (a b : List (String × DsVal)) :
    renderEntries (a ++ b) = renderEntries a ++ renderEntries b := by
  induction a with
  | nil => rfl
  | cons e rest ih =>
    show renderEntry e ++ renderEntries (rest ++ b)
      = (renderEntry e ++ renderEntries rest) ++ renderEntries b
    rw [ih, String.append_assoc]

/-- C10: a bundle containing a non-empty `facultyRoomAllocations` dataset
renders the bare uppercase section header and then nothing of its records:
the key matches no renderer branch, so its contents are dropped. -/
theorem C10_bare_header (contextData : ContextBundle)
    (pre post : List (String × DsVal)) (l : List CAlloc)
    (hl : l ≠ [])
    (hdata : contextData.data
      = pre ++ ("facultyRoomAllocations", DsVal.allocs l) :: post) :
    formatContextData contextData
      = formatHeader contextData ++ renderEntries pre
        ++ ("FACULTYROOMALLOCATIONS:\n" ++ renderEntries post) := by
  have hmid : renderEntry ("facultyRoomAllocations", DsVal.allocs l)
      = "FACULTYROOMALLOCATIONS:\n" := by
    cases l with
    | nil => exact absurd rfl hl
    | cons a as => rfl
  rw [formatContextData, hdata, renderEntries_append]
  show _ ++ (_ ++ (renderEntry _ ++ renderEntries post)) = _
  rw [hmid, String.append_assoc]

/-- Witness for C10: a `room_info` query with a room-number slot produces a
non-empty `facultyRoomAllocations` dataset, and the formatted context for
that bundle carries the bare header with nothing rendered under it. -/
theorem C10_bare_header_witness :
    formatContextData (fetchRelevantData dbOneAlloc roomInfoAnalysis none)
      = formatHeader (fetchRelevantData dbOneAlloc roomInfoAnalysis none)
        ++ renderEntries [("rooms", DsVal.rooms []),
            ("roomAllocations", DsVal.studAllocs [])]
        ++ ("FACULTYROOMALLOCATIONS:\n" ++ renderEntries []) :=
  C10_bare_header _ [("rooms", DsVal.rooms []),
      ("roomAllocations", DsVal.studAllocs [])] [] [allocSample]
    (by simp) rfl

/-! ## C5 — empty datasets: emitted by the router, skipped by the formatter -/

/-- C5 counterexample: an `exam_info` query over a database with no
matching exams produces a bundle whose `data` carries the key `exams` with
the empty list as its value — the router does include empty result sets. -/
theorem C5_router_emits_empty_dataset :
    (fetchRelevantData dbEmptyLookups examInfoAnalysis none).data
      = [("exams", DsVal.exams [])]
    ∧ isEmptyDs (DsVal.exams []) = true :=
  ⟨rfl, rfl⟩

/-- C5 amended: it is the Context Formatter, not the Intent Router, that
suppresses empty datasets — formatting a bundle renders exactly its
non-empty entries, so a key holding `[]`, `{}` or `null` is never
rendered. -/
theorem C5_formatter_skips_empty (contextData : ContextBundle) :
    formatContextData contextData
      = formatHeader contextData
        ++ renderEntries (contextData.data.filter fun e => !isEmptyDs e.2) := by
  rw [formatContextData]
  congr 1
  induction contextData.data with
  | nil => rfl
  | cons e rest ih =>
    rw [List.filter_cons]
    by_cases h : isEmptyDs e.2 = true
    · have he : renderEntry e = "" := by simp [renderEntry, h]
      rw [if_neg (by simp [h])]
      show renderEntry e ++ renderEntries rest = _
      rw [he, ih]
      rfl
    · rw [if_pos (by simp [h])]
      show renderEntry e ++ renderEntries rest
        = renderEntry e ++ renderEntries (rest.filter fun e => !isEmptyDs e.2)
      rw [ih]

/-! ## C1 — `system_stats` role split -/

/-- C1 counterexample: an anonymous caller (`user` absent) asking
`system_stats` receives the **global** stats object and no `facultyStats`
at all, contradicting the claim that every non-Admin (including an absent
user) gets the personal stats bundle. -/
theorem C1_anonymous_gets_global_stats :
    (fetchRelevantData dbEmptyLookups sysStatsAnalysis none).data
      = [("stats", DsVal.stats statsSample)]
    ∧ ((fetchRelevantData dbEmptyLookups sysStatsAnalysis none).data.map
        Prod.fst).contains "facultyStats" = false :=
  ⟨rfl, rfl⟩

/-- C1 amended: on a `system_stats` intent, an **absent** caller or an
Admin receives exactly the global stats object (never `facultyStats`),
while every *present* non-Admin caller receives exactly the personal
`facultyStats` object with its three time-scoped allocation counts (never
the global stats). -/
theorem C1_system_stats_role_split (db : CDb) (a : Analysis)
    (user : Option UserInfo)
    (hintent : jsOrStr a.intent "general_query" = "system_stats") :
    ((user = none ∨ ∃ u, user = some u ∧ u.role = "Admin") →
      (fetchRelevantData db a user).data
        = [("stats", DsVal.stats db.getSystemStats)])
    ∧ (∀ u, user = some u → u.role ≠ "Admin" →
      (fetchRelevantData db a user).data
        = [("facultyStats", DsVal.facultyStats
          { totalAllocations := (db.findFacultyAllocations
              { facultyId := if u.role = "Faculty" then some u.id else none }).length
            upcomingAllocations := (db.findFacultyAllocations
              { facultyId := (if u.role = "Faculty" then some u.id else none)
                future := true }).length
            pastAllocations := (db.findFacultyAllocations
              { facultyId := (if u.role = "Faculty" then some u.id else none)
                past := true }).length })]) := by
  constructor
  · rintro (rfl | ⟨u, rfl, hadmin⟩)
    · simp only [fetchRelevantData, hintent]
      simp
    · simp only [fetchRelevantData, hintent]
      simp [hadmin]
  · rintro u rfl hrole
    simp only [fetchRelevantData, hintent]
    simp [hrole]

/-- Witness for C1 at a concrete Faculty caller with empty allocation
lookups: the personal stats come back zeroed and no global stats appear. -/
theorem C1_system_stats_role_split_witness :
    (fetchRelevantData dbEmptyLookups sysStatsAnalysis (some facultyUser)).data
      = [("facultyStats", DsVal.facultyStats ⟨0, 0, 0⟩)] := by
  have h := (C1_system_stats_role_split dbEmptyLookups sysStatsAnalysis
    (some facultyUser) rfl).2 facultyUser rfl (by decide)
  rw [h]
  rfl

/-! ## C4 — semantic relevance filtering and grouping -/

/-- The `forEach`/`switch` grouping is exactly a per-type filter that keeps
candidate order. -/
theorem collectByType_eq (rs : List SearchResult) :
    collectByType rs
      = ((rs.filter fun r => r.rtype = RType.exam).map SearchResult.content,
         (rs.filter fun r => r.rtype = RType.allocation).map SearchResult.content,
         (rs.filter fun r => r.rtype = RType.room_allocation).map
           SearchResult.content) := by
  induction rs with
  | nil => rfl
  | cons r rest ih =>
    cases hr : r.rtype <;>
      simp [collectByType, ih, List.filter_cons, hr]

/-- C4: the `/admin` route keeps exactly the candidates whose similarity is
at or above the 0.30 relevance threshold; the kept candidates are grouped
by `metadata.type` (in candidate order) and rendered into the context block
handed to the LLM; and when no candidate clears the threshold the route
answers with the fixed no-data message and never invokes the
chat-completion endpoint. -/
theorem C4_threshold_and_grouping (query : String) (env : EmbedEnv)
    (search : Emb → List SearchResult) (llm : String → String → String)
    (v : Emb) (hq : query ≠ "") (henv : env query = .ok v) :
    relevantFilter (search v)
        = (search v).filter (fun r => (3 : ℚ)/10 ≤ r.sim)
    ∧ collectByType (relevantFilter (search v))
        = (((relevantFilter (search v)).filter fun r =>
              r.rtype = RType.exam).map SearchResult.content,
           ((relevantFilter (search v)).filter fun r =>
              r.rtype = RType.allocation).map SearchResult.content,
           ((relevantFilter (search v)).filter fun r =>
              r.rtype = RType.room_allocation).map SearchResult.content)
    ∧ adminRoute query env search llm
        = (if (relevantFilter (search v)).length = 0 then
            .ok (.noData "No relevant exam data available for this query.")
          else
            .ok (.generated (buildAdminContext (relevantFilter (search v)))
              (llm (adminSystemPrompt
                (buildAdminContext (relevantFilter (search v)))) query))) := by
  refine ⟨rfl, collectByType_eq _, ?_⟩
  unfold adminRoute
  rw [if_neg hq, henv]

/-- Witness for C4: one candidate below threshold → the fixed no-data
answer, with the LLM left uncalled. -/
theorem C4_threshold_and_grouping_witness :
    adminRoute "When is Midterm?" (fun _ => .ok 0)
      (fun _ => [⟨(1 : ℚ)/10, RType.exam, "low"⟩]) (fun _ _ => "ans")
      = .ok (.noData "No relevant exam data available for this query.") := by
  have h := C4_threshold_and_grouping "When is Midterm?" (fun _ => .ok 0)
    (fun _ => [⟨(1 : ℚ)/10, RType.exam, "low"⟩]) (fun _ _ => "ans") 0
    (by decide) rfl
  rw [h.2.2]
  have hlt : ¬ ((3 : ℚ)/10 ≤ 1/10) := by norm_num
  simp [relevantFilter, List.filter_cons, hlt]
  norm_num

/-! ## C6 — the entity summarizers do not truncate or placeholder -/

/-- Joining one more non-empty rendered item strictly lengthens the joined
list, whatever its current size. -/
theorem joinSep_cons_length (sep x : String) (xs : List String)
    (hx : 0 < x.length) :
    (joinSep sep xs).length < (joinSep sep (x :: xs)).length := by
  cases xs with
  | nil => simpa [joinSep] using hx
  | cons b bs =>
    show (joinSep sep (b :: bs)).length
      < (x ++ sep ++ joinSep sep (b :: bs)).length
    simp [String.length_append]
    omega

/-- An exam with no joined entities of its own. -/
def examPlain : RExam := ⟨"e9", "Final", 2024, [], [], []⟩

/-- Four joined subjects — more than the 3-item cap the claim asserts. -/
def rsubA : RSubject := ⟨"sA", "Algebra", "MA1", 3, "d1", "09:00", "11:00", none⟩

/-- Second sample subject. -/
def rsubB : RSubject := ⟨"sB", "Biology", "BI1", 3, "d2", "09:00", "11:00", none⟩

/-- Third sample subject. -/
def rsubC : RSubject := ⟨"sC", "Chemistry", "CH1", 3, "d3", "09:00", "11:00", none⟩

/-- Fourth sample subject. -/
def rsubD : RSubject := ⟨"sD", "Drawing", "DR1", 3, "d4", "09:00", "11:00", none⟩

/-- A plain room. -/
def roomPlain : RRoom := ⟨"r9", "Main", "101", 60⟩

/-- A room allocation carrying no subjects. -/
def raPlain : RRoomAllocation :=
  ⟨"ra1", none, none, none, [], [], "d5", "09:00", "11:00"⟩

set_option maxRecDepth 8000 in
/-- C6 counterexample: `buildExamText` over a 4-subject join renders all
four subjects — the fourth appears — with no ellipsis marker anywhere, and
produces neither an `N/A` nor a `Not specified` placeholder. -/
theorem C6_no_truncation_counterexample :
    strContains (buildExamText examPlain [rsubA, rsubB, rsubC, rsubD] [] [])
        "..." = false
    ∧ strContains (buildExamText examPlain [rsubA, rsubB, rsubC, rsubD] [] [])
        "Drawing" = true
    ∧ strContains (buildExamText examPlain [rsubA, rsubB, rsubC, rsubD] [] [])
        "N/A" = false
    ∧ strContains (buildExamText examPlain [rsubA, rsubB, rsubC, rsubD] [] [])
        "Not specified" = false :=
  ⟨rfl, rfl, rfl, rfl⟩

/-- C6 amended: the route-level entity summarizers render **every** item of
a joined list — each additional subject strictly lengthens the output, so
no 3-item truncation or ellipsis exists in them — and the only defensive
placeholder they provide is `No subjects specified` for an empty
room-allocation subject list; the `≤3`/`≤5` sampling with a trailing
ellipsis and the `N/A`/`Not specified` placeholders live in the
controller's `formatContextData` instead. -/
theorem C6_builders_render_every_item (exam : RExam) (s : RSubject)
    (subjects : List RSubject) (faculties : List RFaculty)
    (rooms : List RRoom) :
    (buildExamText exam subjects faculties rooms).length
      < (buildExamText exam (s :: subjects) faculties rooms).length
    ∧ strContains (buildRoomAllocationText raPlain examPlain roomPlain [])
        "No subjects specified" = true := by
  refine ⟨?_, rfl⟩
  have hx : 0 < (s.name ++ " (" ++ s.subjectCode ++ ") on "
      ++ formatDate s.date ++ " " ++ s.startTime ++ "-" ++ s.endTime).length := by
    simp [String.length_append, show (" (" : String).length = 2 from rfl]
  have key := joinSep_cons_length "\n  - "
    (s.name ++ " (" ++ s.subjectCode ++ ") on " ++ formatDate s.date ++ " "
      ++ s.startTime ++ "-" ++ s.endTime)
    (subjects.map fun s => s.name ++ " (" ++ s.subjectCode ++ ") on "
      ++ formatDate s.date ++ " " ++ s.startTime ++ "-" ++ s.endTime) hx
  simp only [buildExamText, List.map_cons, String.length_append]
  omega

/-! ## C2/C3 — cache rebuild sample data -/

/-- An embedding endpoint that always succeeds. -/
def env0 : EmbedEnv := fun _ => .ok 0

/-- A sample exam document. -/
def rexamM : RExam := ⟨"e1", "Midterm", 2025, [⟨3, 40⟩], [], []⟩

/-- A sample room document. -/
def rroomM : RRoom := ⟨"r1", "Main", "101", 60⟩

/-- A sample subject whose populated exam is `rexamM`. -/
def rsubM : RSubject :=
  ⟨"s1", "Math", "MA101", 3, "2025-03-01", "09:00", "11:00", some rexamM⟩

/-- A sample Faculty user document. -/
def rfacM : RFaculty := ⟨"f1", "Dr. Rao", "Professor", "Faculty"⟩

/-- A user document whose role is Admin: `populate('facultyId')` resolves
it, but `User.find({role: 'Faculty'})` does not list it, so the
`facultyMap` lookup misses. -/
def radminM : RFaculty := ⟨"f9", "Alex", "Registrar", "Admin"⟩

/-- An allocation whose exam was deleted: `populate` left `examId` null. -/
def allocDeletedExam : RAllocation :=
  ⟨"a1", none, some rsubM, some rroomM, some rfacM, "2025-03-01", "09:00", "11:00"⟩

/-- Snapshot containing the dangling allocation. -/
def dbDeletedExam : RDb :=
  ⟨[rexamM], [rroomM], [rsubM], [allocDeletedExam], [], [rfacM]⟩

/-- An allocation whose populated faculty is not in the Faculty list. -/
def allocMapMiss : RAllocation :=
  ⟨"a2", some rexamM, some rsubM, some rroomM, some radminM, "2025-03-01", "09:00", "11:00"⟩

/-- Snapshot containing only the map-miss allocation. -/
def dbMapMiss : RDb :=
  ⟨[rexamM], [rroomM], [rsubM], [allocMapMiss], [], [rfacM]⟩

/-- The single exam document a rebuild over `dbMapMiss` indexes. -/
def examDocM : IndexedDoc :=
  ⟨"exam_e1", buildExamText rexamM [rsubM] [] [], 0,
    .exam "e1" "Midterm" 2025 [3]⟩

/-- The successful outcome of rebuilding over `dbMapMiss`. -/
def cacheOkMapMiss : CacheOk :=
  ⟨[examDocM],
    "Data cached successfully: 1 exams, 1 allocations, 0 room allocations"⟩

/-! ## C2 — a deleted join target crashes the rebuild instead of skipping -/

set_option maxRecDepth 8000 in
/-- C2: the allocation-processing code reads `alloc.examId._id` **before**
its `!exam || !subject || !room || !faculty` skip guard, so an allocation
whose exam was deleted (populate → null) throws a `TypeError` that rejects
`Promise.all` and fails the whole `/cache-data` request — the record is not
skipped and the rebuild does not complete.  The skip guard itself is
reachable only when a *map lookup* misses (e.g. a populated `facultyId`
whose user is not role-Faculty): that record is skipped with no document
indexed and the rebuild completes. -/
theorem C2_deleted_exam_aborts_rebuild :
    cacheData dbDeletedExam env0 = .error JsErr.typeError
    ∧ cacheRoute dbDeletedExam env0 = ⟨false, "Cache failed"⟩
    ∧ cacheData dbMapMiss env0 = .ok cacheOkMapMiss :=
  ⟨rfl, rfl, rfl⟩

/-! ## C3 — a failed embedding rejects the whole rebuild -/

/-- An embedding endpoint failing exactly on the first allocation's
summary text. -/
def envFailOne : EmbedEnv := fun s =>
  if s = buildAllocationText
      ⟨"a3", some rexamM, some rsubM, some rroomM, some rfacM,
        "2025-03-01", "09:00", "11:00"⟩ rexamM rsubM rroomM rfacM
  then .error () else .ok 0

/-- First resolvable allocation. -/
def allocG1 : RAllocation :=
  ⟨"a3", some rexamM, some rsubM, some rroomM, some rfacM, "2025-03-01", "09:00", "11:00"⟩

/-- Second resolvable allocation. -/
def allocG2 : RAllocation :=
  ⟨"a4", some rexamM, some rsubM, some rroomM, some rfacM, "2025-03-02", "09:00", "11:00"⟩

/-- Snapshot with two fully resolvable allocations. -/
def dbTwoAllocs : RDb :=
  ⟨[rexamM], [rroomM], [rsubM], [allocG1, allocG2], [], [rfacM]⟩

set_option maxRecDepth 8000 in
/-- C3 counterexample: when the embedding call fails for one document's
content, the rejected promise propagates through `Promise.all` and the
whole `/cache-data` request reports failure — the rebuild of the remaining
documents is not reported as completing, contradicting the claim that only
that one document's indexing is aborted. -/
theorem C3_embedding_failure_aborts_whole_rebuild :
    cacheData dbTwoAllocs envFailOne = .error JsErr.embeddingError
    ∧ cacheRoute dbTwoAllocs envFailOne = ⟨false, "Cache failed"⟩ :=
  ⟨rfl, rfl⟩

/-- Inversion for `Promise.all`: a successful aggregate means every element
came from a successful per-record promise. -/
theorem mapE_ok_mem (f : α → Except ε β) :
    ∀ (l : List α) (ys : List β), mapE f l = .ok ys →
      ∀ y ∈ ys, ∃ x ∈ l, f x = .ok y := by
  intro l
  induction l with
  | nil =>
    intro ys h y hy
    simp only [mapE] at h
    cases h
    simp at hy
  | cons x xs ih =>
    intro ys h y hy
    simp only [mapE] at h
    split at h
    · simp at h
    · next y0 hfx =>
      split at h
      · simp at h
      · next ys0 hrest =>
        cases h
        rcases List.mem_cons.mp hy with rfl | hmem
        · exact ⟨x, List.mem_cons_self x xs, hfx⟩
        · obtain ⟨x', hx', hfx'⟩ := ih ys0 hrest y hmem
          exact ⟨x', List.mem_cons_of_mem x hx', hfx'⟩

/-- A successfully indexed exam document carries the successful embedding
of its own content. -/
theorem processExam_embedding (env : EmbedEnv) (subjects : List RSubject)
    (fm : String → Option RFaculty) (rm : String → Option RRoom)
    (exam : RExam) (d : IndexedDoc)
    (h : processExam env subjects fm rm exam = .ok (some d)) :
    env d.content = .ok d.embedding := by
  simp only [processExam] at h
  split at h
  · simp at h
  · next examSubjects hfe =>
    split at h
    · simp at h
    · next emb hge =>
      cases h
      simp only [getEmbedding] at hge
      split at hge
      · next v hv =>
        cases hge
        exact hv
      · simp at hge

/-- A successfully indexed allocation document carries the successful
embedding of its own content. -/
theorem processAlloc_embedding (env : EmbedEnv)
    (em : String → Option RExam) (sm : String → Option RSubject)
    (rm : String → Option RRoom) (fm : String → Option RFaculty)
    (alloc : RAllocation) (d : IndexedDoc)
    (h : processAlloc env em sm rm fm alloc = .ok (some d)) :
    env d.content = .ok d.embedding := by
  simp only [processAlloc] at h
  split at h
  · simp at h
  · split at h
    · simp at h
    · split at h
      · simp at h
      · split at h
        · simp at h
        · split at h
          · next exam subject room faculty =>
            split at h
            · simp at h
            · next emb hge =>
              cases h
              simp only [getEmbedding] at hge
              split at hge
              · next v hv =>
                cases hge
                exact hv
              · simp at hge
          · simp at h

/-- A successfully indexed room-allocation document carries the successful
embedding of its own content. -/
theorem processRoomAlloc_embedding (env : EmbedEnv)
    (em : String → Option RExam) (sm : String → Option RSubject)
    (rm : String → Option RRoom)
    (roomAlloc : RRoomAllocation) (d : IndexedDoc)
    (h : processRoomAlloc env em sm rm roomAlloc = .ok (some d)) :
    env d.content = .ok d.embedding := by
  simp only [processRoomAlloc] at h
  split at h
  · simp at h
  · split at h
    · simp at h
    · split at h
      · next exam room =>
        split at h
        · simp at h
        · split at h
          · simp at h
          · next emb hge =>
            cases h
            simp only [getEmbedding] at hge
            split at hge
            · next v hv =>
              cases hge
              exact hv
            · simp at hge
      · simp at h

/-- C3 amended: no zero vector (or any other substitute) is ever stored for
a failed embedding — a rebuild reports success only when every indexed
document's `embedding` is exactly the successful embedding of its
`content`; a failed embedding instead rejects the whole `/cache-data`
request (see the counterexample). -/
theorem C3_no_zero_vector (db : RDb) (env : EmbedEnv) (r : CacheOk)
    (h : cacheData db env = .ok r) :
    ∀ d ∈ r.docs, env d.content = .ok d.embedding := by
  intro d hd
  simp only [cacheData] at h
  split at h
  · simp at h
  · next examResults hexams =>
    split at h
    · simp at h
    · next allocResults hallocs =>
      split at h
      · simp at h
      · next roomAllocResults hras =>
        cases h
        have hmem : some d ∈ examResults ++ allocResults ++ roomAllocResults :=
          List.reduceOption_mem_iff.mp hd
        rcases List.mem_append.mp hmem with hmem' | hra
        · rcases List.mem_append.mp hmem' with he | ha
          · obtain ⟨x, _, hx⟩ := mapE_ok_mem _ _ _ hexams _ he
            exact processExam_embedding _ _ _ _ _ _ hx
          · obtain ⟨x, _, hx⟩ := mapE_ok_mem _ _ _ hallocs _ ha
            exact processAlloc_embedding _ _ _ _ _ _ _ hx
        · obtain ⟨x, _, hx⟩ := mapE_ok_mem _ _ _ hras _ hra
          exact processRoomAlloc_embedding _ _ _ _ _ _ hx

set_option maxRecDepth 8000 in
/-- Witness for C3 over the successful `dbMapMiss` rebuild: the one indexed
document's stored embedding is the genuine embedding of its content. -/
theorem C3_no_zero_vector_witness :
    env0 examDocM.content = .ok examDocM.embedding :=
  C3_no_zero_vector dbMapMiss env0 cacheOkMapMiss rfl examDocM
    (by simp [cacheOkMapMiss])

/-! ## C9 — input validation before retrieval -/

/-- A sample knowledge base returning one document. -/
def kbW : String → List String := fun _ => ["doc1"]

/-- A sample Groq model. -/
def llmW : List ChatbotJs.LcMsg → String := fun _ => "ans"

/-- C9 counterexample: a malformed conversation history — here an array
holding a non-object entry, and likewise a non-array — is **not** rejected:
the call succeeds, the knowledge base is queried, and the invalid entries
are silently dropped. -/
theorem C9_malformed_history_not_rejected :
    ChatbotJs.generateResponse kbW llmW (some "hello")
        (some [ChatbotJs.HistItem.nonObj])
      = .ok
        { retrievedDocs := ["doc1"]
          usedHistory := []
          messages := [ChatbotJs.LcMsg.system ChatbotJs.systemText,
            ChatbotJs.LcMsg.system
              ("Here is some relevant information that might help answer the user's question:\n"
                ++ "doc1"),
            ChatbotJs.LcMsg.human "hello"]
          answer := "ans" }
    ∧ ChatbotJs.generateResponse kbW llmW (some "hello") none
      = ChatbotJs.generateResponse kbW llmW (some "hello")
          (some [ChatbotJs.HistItem.nonObj]) :=
  ⟨rfl, rfl⟩

/-- C9 amended: a malformed **query** (absent, non-string or
whitespace-only) is rejected with the fixed validation error before the
knowledge base is ever queried (and `/admin` rejects a missing query before
embedding); a malformed **history** is never rejected — it is silently
sanitized (non-array → `[]`, invalid entries filtered out) and retrieval
proceeds. -/
theorem C9_validation (kb : String → List String)
    (llm : List ChatbotJs.LcMsg → String)
    (chatHistory : Option (List ChatbotJs.HistItem)) (input : String)
    (hinput : jsTrim input ≠ "") :
    ChatbotJs.generateResponse kb llm none chatHistory
        = .error "Invalid message format"
    ∧ ChatbotJs.generateResponse kb llm (some "") chatHistory
        = .error "Invalid message format"
    ∧ (∀ t, ChatbotJs.generateResponse kb llm (some input) chatHistory = .ok t →
        t.usedHistory = ChatbotJs.validateChatHistory chatHistory
        ∧ (∀ m ∈ t.usedHistory, ChatbotJs.isValidHistMsg m = true)
        ∧ t.retrievedDocs = kb input)
    ∧ (ChatbotJs.generateResponse kb llm (some input) chatHistory).isOk = true
    ∧ (∀ (env : EmbedEnv) (search : Emb → List SearchResult)
        (llm2 : String → String → String),
        adminRoute "" env search llm2 = .error "Query is required") := by
  refine ⟨rfl, rfl, ?_, ?_, fun env search llm2 => rfl⟩
  · intro t ht
    simp only [ChatbotJs.generateResponse, if_neg hinput] at ht
    cases ht
    refine ⟨rfl, ?_, rfl⟩
    intro m hm
    cases chatHistory with
    | none => simp [ChatbotJs.validateChatHistory] at hm
    | some l =>
      simp only [ChatbotJs.validateChatHistory] at hm
      exact List.of_mem_filter hm
  · simp only [ChatbotJs.generateResponse, if_neg hinput]
    rfl

/-- Witness for C9 at a concrete malformed query. -/
theorem C9_validation_witness :
    ChatbotJs.generateResponse kbW llmW none
        (some [ChatbotJs.HistItem.nonObj])
      = .error "Invalid message format" :=
  (C9_validation kbW llmW (some [ChatbotJs.HistItem.nonObj]) "hi"
    (by decide)).1

end ExamChat
